import Mathlib

/-!
Shallow embedding of `systers_portal/meetup/forms.py` (Django form classes
for the meetup feature) and proofs about its validation and save hooks.

Modelling conventions:
* A calendar date (`datetime.date`) is abstracted as a `Nat` ordinal
  (days since an epoch); Python date comparison is the `Nat` order.
* A time of day (`datetime.time`) is abstracted as a `Nat`
  (e.g. microseconds since midnight); Python time comparison is the
  `Nat` order.
* `timezone.now()` is modelled as a `Clock` snapshot holding the current
  date and the current time of day.
* Users, SystersUser records, meetup locations and meetup rows are
  identified by `Nat` primary keys.  `SystersUser.objects.get(user=u)`
  is modelled by an environment function `systersUserOf`.
* The external meeting-provider client (`meetup.utils.create_meetup`,
  `edit_meetup`, `get_meetup`) is modelled by environment functions
  returning a `MeetData` record (the dict used by the forms).
* Database writes and external calls are recorded in an ordered list of
  `Event`s, so "before persisting" is an ordering fact about the trace;
  the `MeetupImages` table is additionally threaded as explicit state
  (`ImagesDb`) where a claim is about its contents.
* `forms.ValidationError(...)` is an `Except.error` carrying the message
  and the optional error code; returning a value is `Except.ok`.
-/

namespace Portal

/-- A calendar date (`datetime.date`), as a `Nat` ordinal. -/
abbrev Date := Nat

/-- A time of day (`datetime.time`), as a `Nat` offset from midnight. -/
abbrev Time := Nat

/-- Snapshot of `timezone.now()`: `today` is `.date()`, `now` is `.time()`. -/
structure Clock where
  today : Date
  now : Time
deriving Repr, DecidableEq

/-- `django.forms.ValidationError` with its message and optional code. -/
structure ValidationError where
  message : String
  code : Option String
deriving Repr, DecidableEq

/-- `True` exactly when the cleaning step raised a `ValidationError`. -/
def raisesValidationError {α : Type} : Except ValidationError α → Bool
  | Except.error _ => true
  | Except.ok _ => false

namespace RequestMeetupForm

/-- `RequestMeetupForm.clean_date`: raise if the submitted date is less
than the current date, else return the date. -/
def clean_date (clock : Clock) (date : Date) : Except ValidationError Date :=
  if date < clock.today then
    Except.error ⟨"Date should not be before today\x27s date.", some "date_in_past"⟩
  else
    Except.ok date

/-- `RequestMeetupForm.clean_time`: when a time is present and the date
equals the current date and the time is less than the current time, raise;
else return the time.  `date` is `cleaned_data.get` of the date field, so it
may be absent. -/
def clean_time (clock : Clock) (date : Option Date) (time : Option Time) :
    Except ValidationError (Option Time) :=
  match time with
  | none => Except.ok none
  | some t =>
    if date = some clock.today ∧ t < clock.now then
      Except.error ⟨"Time should not be a time that has already passed.",
                    some "time_in_past"⟩
    else
      Except.ok (some t)

end RequestMeetupForm

namespace AddMeetupForm

/-- `AddMeetupForm.clean_date`: same check as `RequestMeetupForm.clean_date`
but the `ValidationError` is raised without a code. -/
def clean_date (clock : Clock) (date : Date) : Except ValidationError Date :=
  if date < clock.today then
    Except.error ⟨"Date should not be before today\x27s date.", none⟩
  else
    Except.ok date

/-- `AddMeetupForm.clean_time`: same check as `RequestMeetupForm.clean_time`
but the `ValidationError` is raised without a code. -/
def clean_time (clock : Clock) (date : Option Date) (time : Option Time) :
    Except ValidationError (Option Time) :=
  match time with
  | none => Except.ok none
  | some t =>
    if date = some clock.today ∧ t < clock.now then
      Except.error ⟨"Time should not be a time that has already passed.", none⟩
    else
      Except.ok (some t)

end AddMeetupForm

namespace RequestVirtualMeetupForm

/-- `RequestVirtualMeetupForm.clean_date`: identical body to
`RequestMeetupForm.clean_date`. -/
def clean_date (clock : Clock) (date : Date) : Except ValidationError Date :=
  if date < clock.today then
    Except.error ⟨"Date should not be before today\x27s date.", some "date_in_past"⟩
  else
    Except.ok date

/-- `RequestVirtualMeetupForm.clean_time`: identical body to
`RequestMeetupForm.clean_time`. -/
def clean_time (clock : Clock) (date : Option Date) (time : Option Time) :
    Except ValidationError (Option Time) :=
  match time with
  | none => Except.ok none
  | some t =>
    if date = some clock.today ∧ t < clock.now then
      Except.error ⟨"Time should not be a time that has already passed.",
                    some "time_in_past"⟩
    else
      Except.ok (some t)

end RequestVirtualMeetupForm

/-- An unsaved `RequestMeetup` model instance as produced by
`super().save(commit=False)` from the form fields, together with the
model fields the save hooks assign. -/
structure RequestMeetupInstance where
  title : String
  slug : String
  date : Date
  time : Option Time
  venue : String
  meetup_location : Nat
  description : String
  created_by : Option Nat
  is_virtual : Bool
deriving Repr, DecidableEq

/-- An unsaved `Meetup` model instance, with the fields the meetup forms
read or assign.  `pk` is the row's primary key, used by the
`MeetupImages` foreign key. -/
structure MeetupInstance where
  pk : Nat
  title : String
  slug : String
  date : Date
  time : Option Time
  is_virtual : Bool
  meetup_location : Nat
  venue : String
  description : String
  resources : String
  created_by : Option Nat
  leader : Option Nat
  meet_link : String
  start_url : String
  meeting_id : String
deriving Repr, DecidableEq

/-- An unsaved `Rsvp` model instance. -/
structure RsvpInstance where
  coming : Bool
  plus_one : Bool
  user : Option Nat
  meetup : Option Nat
deriving Repr, DecidableEq

/-- The dict returned by the meeting-provider client
(`create_meetup` / `get_meetup`): the keys the forms read. -/
structure MeetData where
  join_url : String
  start_url : String
  id : String
deriving Repr, DecidableEq

/-- The environment a save hook runs in: the `SystersUser` lookup
(`SystersUser.objects.get(user=u)`, mapping a user pk to its SystersUser
pk) and the external meeting-provider client functions. -/
structure Env where
  systersUserOf : Nat → Nat
  create_meetup : MeetupInstance → MeetData
  get_meetup : MeetupInstance → MeetData

/-- One observable side effect of a save hook, in program order:
a database write (`persist...`, `deleteMeetupImages`,
`createMeetupImage`) or a call to the external meeting-provider client. -/
inductive Event
  | persistRequestMeetup (inst : RequestMeetupInstance)
  | persistMeetup (inst : MeetupInstance)
  | persistRsvp (inst : RsvpInstance)
  | callCreateMeetup (inst : MeetupInstance)
  | callEditMeetup (inst : MeetupInstance)
  | callGetMeetup (inst : MeetupInstance)
  | deleteMeetupImages (meetup : Nat)
  | createMeetupImage (meetup : Nat) (image : String)
deriving Repr, DecidableEq

/-- A row of the `MeetupImages` table: foreign key to a meetup and the
image payload. -/
structure MeetupImageRow where
  meetup : Nat
  image : String
deriving Repr, DecidableEq

/-- The `MeetupImages` table. -/
abbrev ImagesDb := List MeetupImageRow

/-- The images associated with meetup `pk` in the table, in row order. -/
def imagesOf (db : ImagesDb) (pk : Nat) : List String :=
  (db.filter (fun row => row.meetup == pk)).map (fun row => row.image)

/-- `RequestMeetupForm.save`: take the instance from
`super().save(commit=False)`, stamp `created_by` with the SystersUser of
the user passed as `created_by` at construction, persist iff `commit`.
Returns the instance and the ordered side effects. -/
def RequestMeetupForm.save (env : Env) (formInstance : RequestMeetupInstance)
    (user : Nat) (commit : Bool) : RequestMeetupInstance × List Event :=
  let inst := { formInstance with created_by := some (env.systersUserOf user) }
  (inst, if commit then [Event.persistRequestMeetup inst] else [])

/-- `AddMeetupForm.save`: take the instance from `super().save(commit=False)`,
stamp `created_by` and `leader` from the `created_by` user, and when
`is_virtual` call `create_meetup` and copy `join_url`, `start_url`, `id`
into `meet_link`, `start_url`, `meeting_id`; persist iff `commit`; then
create one `MeetupImages` row per submitted image.  The `leader` keyword
argument popped in `__init__` is stored on the form but never read. -/
def AddMeetupForm.save (env : Env) (formInstance : MeetupInstance)
    (created_by : Nat) (leader : Nat) (images : List String) (commit : Bool) :
    MeetupInstance × List Event :=
  let _ := leader
  let stamped := { formInstance with
    created_by := some (env.systersUserOf created_by),
    leader := some (env.systersUserOf created_by) }
  let (inst, virtualEvents) :=
    if stamped.is_virtual then
      let meet_data := env.create_meetup stamped
      ({ stamped with
          meet_link := meet_data.join_url,
          start_url := meet_data.start_url,
          meeting_id := meet_data.id },
       [Event.callCreateMeetup stamped])
    else
      (stamped, [])
  let persistEvents := if commit then [Event.persistMeetup inst] else []
  let imageEvents := images.map (Event.createMeetupImage inst.pk)
  (inst, virtualEvents ++ persistEvents ++ imageEvents)

/-- `EditMeetupForm.save`: `super().save(commit)` persists the edited
instance first (when `commit`); then all `MeetupImages` rows of this
meetup are deleted and one row per submitted image is created; then, when
`is_virtual`, `edit_meetup` and `get_meetup` are called and `join_url`,
`start_url`, `id` are copied onto the in-memory instance, which is not
saved again.  Returns the instance, the updated table and the effects. -/
def EditMeetupForm.save (env : Env) (formInstance : MeetupInstance)
    (images : List String) (commit : Bool) (db : ImagesDb) :
    MeetupInstance × ImagesDb × List Event :=
  let persistEvents := if commit then [Event.persistMeetup formInstance] else []
  let db1 := db.filter (fun row => row.meetup != formInstance.pk)
  let imageEvents := images.map (Event.createMeetupImage formInstance.pk)
  let db2 := db1 ++ images.map (fun img => MeetupImageRow.mk formInstance.pk img)
  let (inst, virtualEvents) :=
    if formInstance.is_virtual then
      let meet_data := env.get_meetup formInstance
      ({ formInstance with
          meet_link := meet_data.join_url,
          start_url := meet_data.start_url,
          meeting_id := meet_data.id },
       [Event.callEditMeetup formInstance, Event.callGetMeetup formInstance])
    else
      (formInstance, [])
  (inst, db2,
   persistEvents ++ [Event.deleteMeetupImages formInstance.pk]
     ++ imageEvents ++ virtualEvents)

/-- `RsvpForm.save`: stamp `user` with the SystersUser of the user passed
at construction and `meetup` with the meetup passed at construction,
persist iff `commit`. -/
def RsvpForm.save (env : Env) (formInstance : RsvpInstance)
    (user : Nat) (meetup : Nat) (commit : Bool) : RsvpInstance × List Event :=
  let inst := { formInstance with
    user := some (env.systersUserOf user), meetup := some meetup }
  (inst, if commit then [Event.persistRsvp inst] else [])

/-- `RequestVirtualMeetupForm.save`: stamp `created_by` with the
SystersUser of the user passed as `created_by` at construction, set
`is_virtual = True`, persist iff `commit`. -/
def RequestVirtualMeetupForm.save (env : Env)
    (formInstance : RequestMeetupInstance) (user : Nat) (commit : Bool) :
    RequestMeetupInstance × List Event :=
  let inst := { formInstance with
    created_by := some (env.systersUserOf user), is_virtual := true }
  (inst, if commit then [Event.persistRequestMeetup inst] else [])

/-- The form classes defined in `meetup/forms.py`, in source order. -/
inductive MeetupFormClass
  | requestMeetupForm
  | addMeetupForm
  | editMeetupForm
  | addMeetupCommentForm
  | editMeetupCommentForm
  | rsvpForm
  | addSupportRequestForm
  | editSupportRequestForm
  | addSupportRequestCommentForm
  | editSupportRequestCommentForm
  | pastMeetup
  | requestVirtualMeetupForm
deriving Repr, DecidableEq

/-- Whether the class body defines a `save` method (transcribed from the
source: the three plain edit forms define none and inherit the unmodified
`ModelForm.save`). -/
def overridesSave : MeetupFormClass → Bool
  | MeetupFormClass.editMeetupCommentForm => false
  | MeetupFormClass.editSupportRequestForm => false
  | MeetupFormClass.editSupportRequestCommentForm => false
  | _ => true

/-- The ownership/foreign-key fields each class's `save` assigns on the
instance before `instance.save()` runs (transcribed from the source save
bodies).  `EditMeetupForm` and `PastMeetup` override `save` but assign no
such field before persisting (`EditMeetupForm` assigns only
`meet_link`/`start_url`/`meeting_id`, and only after `super().save(commit)`
has already persisted the row); classes without a `save` override assign
nothing. -/
def stampedOwnershipFields : MeetupFormClass → List String
  | MeetupFormClass.requestMeetupForm => ["created_by"]
  | MeetupFormClass.addMeetupForm => ["created_by", "leader"]
  | MeetupFormClass.editMeetupForm => []
  | MeetupFormClass.addMeetupCommentForm => ["content_object", "author"]
  | MeetupFormClass.editMeetupCommentForm => []
  | MeetupFormClass.rsvpForm => ["user", "meetup"]
  | MeetupFormClass.addSupportRequestForm => ["volunteer", "meetup"]
  | MeetupFormClass.editSupportRequestForm => []
  | MeetupFormClass.addSupportRequestCommentForm => ["content_object", "author"]
  | MeetupFormClass.editSupportRequestCommentForm => []
  | MeetupFormClass.pastMeetup => []
  | MeetupFormClass.requestVirtualMeetupForm => ["created_by"]

namespace EditMeetupForm

/-- `EditMeetupForm` declares no `clean_date` method, so Django applies no
check beyond the base `DateField` parsing: the submitted date is kept
unchanged whatever the current date is. -/
def clean_date (clock : Clock) (date : Date) : Except ValidationError Date :=
  let _ := clock
  Except.ok date

/-- `EditMeetupForm` declares no `clean_time` method either: the submitted
time (possibly absent) is kept unchanged whatever the current time is. -/
def clean_time (clock : Clock) (date : Option Date) (time : Option Time) :
    Except ValidationError (Option Time) :=
  let _ := clock
  let _ := date
  Except.ok time

end EditMeetupForm

/-- A concrete environment for evaluating the save hooks: the SystersUser
pk of user `u` is `u + 100`, and the meeting-provider client returns fixed
records. -/
def env0 : Env where
  systersUserOf := fun u => u + 100
  create_meetup := fun _ => ⟨"zoom-join", "zoom-start", "zoom-id"⟩
  get_meetup := fun _ => ⟨"new-join", "new-start", "new-id"⟩

/-- A concrete virtual `Meetup` instance with pk 1 and stale meeting
fields. -/
def minst : MeetupInstance :=
  { pk := 1, title := "t", slug := "s", date := 7, time := some 30,
    is_virtual := true, meetup_location := 2, venue := "v",
    description := "d", resources := "r", created_by := none,
    leader := none, meet_link := "old-join", start_url := "old-start",
    meeting_id := "old-id" }

/-- C1: for RequestMeetupForm, AddMeetupForm and RequestVirtualMeetupForm,
`clean_date` raises a ValidationError if and only if the submitted date is
strictly before today, and otherwise returns the submitted date unchanged. -/
theorem claim_c1 (clock : Clock) (date : Date) :
    (raisesValidationError (RequestMeetupForm.clean_date clock date) = true ↔
      date < clock.today)
  ∧ (raisesValidationError (AddMeetupForm.clean_date clock date) = true ↔
      date < clock.today)
  ∧ (raisesValidationError (RequestVirtualMeetupForm.clean_date clock date) = true ↔
      date < clock.today)
  ∧ (¬ date < clock.today →
      RequestMeetupForm.clean_date clock date = Except.ok date
    ∧ AddMeetupForm.clean_date clock date = Except.ok date
    ∧ RequestVirtualMeetupForm.clean_date clock date = Except.ok date) := by
  unfold RequestMeetupForm.clean_date AddMeetupForm.clean_date
    RequestVirtualMeetupForm.clean_date raisesValidationError
  by_cases h : date < clock.today <;> simp [h]

/-- C1 witness: at `today = 5`, the date `3` is rejected by all three forms
and the date `7` is accepted unchanged. -/
theorem claim_c1_witness :
    raisesValidationError (RequestMeetupForm.clean_date ⟨5, 0⟩ 3) = true
  ∧ RequestMeetupForm.clean_date ⟨5, 0⟩ 7 = Except.ok 7
  ∧ AddMeetupForm.clean_date ⟨5, 0⟩ 7 = Except.ok 7
  ∧ RequestVirtualMeetupForm.clean_date ⟨5, 0⟩ 7 = Except.ok 7 :=
  ⟨(claim_c1 ⟨5, 0⟩ 3).1.mpr (by decide),
   ((claim_c1 ⟨5, 0⟩ 7).2.2.2 (by decide)).1,
   ((claim_c1 ⟨5, 0⟩ 7).2.2.2 (by decide)).2.1,
   ((claim_c1 ⟨5, 0⟩ 7).2.2.2 (by decide)).2.2⟩

/-- C2: for RequestMeetupForm, AddMeetupForm and RequestVirtualMeetupForm,
when a time is present `clean_time` raises a ValidationError iff the
submitted date equals today and the time is strictly before the current
time; when the date is after today every time is accepted; when no time is
present no time error is raised. -/
theorem claim_c2 (clock : Clock) (date : Option Date) (t : Time) :
    (raisesValidationError (RequestMeetupForm.clean_time clock date (some t)) = true ↔
      date = some clock.today ∧ t < clock.now)
  ∧ (raisesValidationError (AddMeetupForm.clean_time clock date (some t)) = true ↔
      date = some clock.today ∧ t < clock.now)
  ∧ (raisesValidationError (RequestVirtualMeetupForm.clean_time clock date (some t)) = true ↔
      date = some clock.today ∧ t < clock.now)
  ∧ (∀ d : Date, clock.today < d →
      RequestMeetupForm.clean_time clock (some d) (some t) = Except.ok (some t)
    ∧ AddMeetupForm.clean_time clock (some d) (some t) = Except.ok (some t)
    ∧ RequestVirtualMeetupForm.clean_time clock (some d) (some t) = Except.ok (some t))
  ∧ (RequestMeetupForm.clean_time clock date none = Except.ok none
    ∧ AddMeetupForm.clean_time clock date none = Except.ok none
    ∧ RequestVirtualMeetupForm.clean_time clock date none = Except.ok none) := by
  unfold RequestMeetupForm.clean_time AddMeetupForm.clean_time
    RequestVirtualMeetupForm.clean_time
  refine ⟨?_, ?_, ?_, ?_, by simp⟩
  case _ =>
    by_cases h : date = some clock.today ∧ t < clock.now <;>
      simp [h, raisesValidationError]
  case _ =>
    by_cases h : date = some clock.today ∧ t < clock.now <;>
      simp [h, raisesValidationError]
  case _ =>
    by_cases h : date = some clock.today ∧ t < clock.now <;>
      simp [h, raisesValidationError]
  case _ =>
    intro d hd
    have hne : ¬ ((some d : Option Date) = some clock.today ∧ t < clock.now) := by
      rintro ⟨hd2, -⟩
      exact absurd (Option.some_inj.mp hd2) (Nat.ne_of_gt hd)
    simp [hne]
    intro h
    exact absurd h (Nat.ne_of_gt hd)

/-- C2 witness: with `today = 5, now = 100`, the time `50` on date `5` is
rejected, every time on the later date `6` is accepted, and an absent time
raises nothing. -/
theorem claim_c2_witness :
    raisesValidationError (RequestMeetupForm.clean_time ⟨5, 100⟩ (some 5) (some 50)) = true
  ∧ AddMeetupForm.clean_time ⟨5, 100⟩ (some 6) (some 50) = Except.ok (some 50)
  ∧ RequestVirtualMeetupForm.clean_time ⟨5, 100⟩ (some 5) none = Except.ok none :=
  ⟨(claim_c2 ⟨5, 100⟩ (some 5) 50).1.mpr (by decide),
   ((claim_c2 ⟨5, 100⟩ (some 6) 50).2.2.2.1 6 (by decide)).2.1,
   (claim_c2 ⟨5, 100⟩ (some 5) 50).2.2.2.2.2.2⟩

/-- C3 counterexample: `EditMeetupCommentForm` (and likewise
`EditSupportRequestForm` and `EditSupportRequestCommentForm`) defines no
`save` method at all, so it stamps no ownership/foreign-key field — the
claim that every form class in the module has such a save hook fails. -/
theorem claim_c3_counterexample :
    overridesSave MeetupFormClass.editMeetupCommentForm = false
  ∧ stampedOwnershipFields MeetupFormClass.editMeetupCommentForm = []
  ∧ overridesSave MeetupFormClass.editSupportRequestForm = false
  ∧ overridesSave MeetupFormClass.editSupportRequestCommentForm = false := by
  decide

/-- C3 amended: exactly the seven creation forms have a save hook that
stamps ownership/foreign-key fields before persisting; the three plain
edit forms define no save override, and EditMeetupForm and PastMeetup
override save without stamping any ownership field before persisting. -/
theorem claim_c3 (c : MeetupFormClass) :
    ((overridesSave c = true ∧ stampedOwnershipFields c ≠ []) ↔
      c ∈ [MeetupFormClass.requestMeetupForm, MeetupFormClass.addMeetupForm,
           MeetupFormClass.addMeetupCommentForm, MeetupFormClass.rsvpForm,
           MeetupFormClass.addSupportRequestForm,
           MeetupFormClass.addSupportRequestCommentForm,
           MeetupFormClass.requestVirtualMeetupForm])
  ∧ (overridesSave c = false ↔
      c ∈ [MeetupFormClass.editMeetupCommentForm,
           MeetupFormClass.editSupportRequestForm,
           MeetupFormClass.editSupportRequestCommentForm]) := by
  cases c <;> exact ⟨by decide, by decide⟩

/-- C3 witness: `RequestMeetupForm` is one of the creation forms, so it
overrides save and stamps a nonempty field list. -/
theorem claim_c3_witness :
    overridesSave MeetupFormClass.requestMeetupForm = true
  ∧ stampedOwnershipFields MeetupFormClass.requestMeetupForm ≠ [] :=
  (claim_c3 MeetupFormClass.requestMeetupForm).1.mpr (by decide)

/-- C6 counterexample: with today = 5 and current time 100, the past date
3 and the past time 50 on today pass `EditMeetupForm`'s cleaning
unchanged — no validation error is raised, unlike the creation forms. -/
theorem claim_c6_counterexample :
    (3 : Date) < 5
  ∧ EditMeetupForm.clean_date ⟨5, 100⟩ 3 = Except.ok 3
  ∧ (50 : Time) < 100
  ∧ EditMeetupForm.clean_time ⟨5, 100⟩ (some 5) (some 50) = Except.ok (some 50)
  ∧ raisesValidationError (AddMeetupForm.clean_date ⟨5, 100⟩ 3) = true :=
  ⟨by decide, rfl, by decide, rfl, by decide⟩

/-- C6 amended: EditMeetupForm is not subject to the temporal validation
of the creation forms: it declares no `clean_date` or `clean_time`, so any
date (including one before today) and any time (including one already
passed today) are accepted unchanged, while the same date is rejected by
AddMeetupForm's validation. -/
theorem claim_c6 (clock : Clock) (date : Date) (time : Option Time) :
    EditMeetupForm.clean_date clock date = Except.ok date
  ∧ EditMeetupForm.clean_time clock (some date) time = Except.ok time
  ∧ (date < clock.today →
      raisesValidationError (AddMeetupForm.clean_date clock date) = true) := by
  refine ⟨rfl, rfl, fun h => ?_⟩
  simp [AddMeetupForm.clean_date, h, raisesValidationError]

/-- C6 witness: at `today = 9`, the past date `2` passes EditMeetupForm
unchanged and is rejected by AddMeetupForm. -/
theorem claim_c6_witness :
    EditMeetupForm.clean_date ⟨9, 0⟩ 2 = Except.ok 2
  ∧ raisesValidationError (AddMeetupForm.clean_date ⟨9, 0⟩ 2) = true :=
  ⟨(claim_c6 ⟨9, 0⟩ 2 none).1, (claim_c6 ⟨9, 0⟩ 2 none).2.2 (by decide)⟩

/-- C8: the `leader` argument popped by `AddMeetupForm.__init__` has no
effect on the saved instance: two saves differing only in that argument
agree completely, and the instance's `leader` field always equals the
SystersUser of the `created_by` user. -/
theorem claim_c8 (env : Env) (mi : MeetupInstance) (cb l1 l2 : Nat)
    (imgs : List String) (commit : Bool) :
    AddMeetupForm.save env mi cb l1 imgs commit
      = AddMeetupForm.save env mi cb l2 imgs commit
  ∧ (AddMeetupForm.save env mi cb l1 imgs commit).1.leader
      = some (env.systersUserOf cb) := by
  refine ⟨rfl, ?_⟩
  unfold AddMeetupForm.save
  by_cases h : mi.is_virtual <;> simp [h]

/-- C4: in `AddMeetupForm.save` with commit, when `is_virtual` is set the
client's `create_meetup` is called and `meet_link`, `start_url`,
`meeting_id` take the returned `join_url`, `start_url`, `id`, with the
call preceding the persist event and the persisted instance carrying the
new values; when `is_virtual` is not set, no client call appears in the
trace and the three fields are unchanged. -/
theorem claim_c4 (env : Env) (mi : MeetupInstance) (cb l : Nat)
    (imgs : List String) :
    (mi.is_virtual = true →
      AddMeetupForm.save env mi cb l imgs true =
        (let stamped := { mi with
            created_by := some (env.systersUserOf cb),
            leader := some (env.systersUserOf cb) }
         let inst := { stamped with
            meet_link := (env.create_meetup stamped).join_url,
            start_url := (env.create_meetup stamped).start_url,
            meeting_id := (env.create_meetup stamped).id }
         (inst, Event.callCreateMeetup stamped :: Event.persistMeetup inst ::
                  imgs.map (Event.createMeetupImage inst.pk))))
  ∧ (mi.is_virtual = false →
      (∀ m, Event.callCreateMeetup m ∉ (AddMeetupForm.save env mi cb l imgs true).2)
    ∧ (AddMeetupForm.save env mi cb l imgs true).1.meet_link = mi.meet_link
    ∧ (AddMeetupForm.save env mi cb l imgs true).1.start_url = mi.start_url
    ∧ (AddMeetupForm.save env mi cb l imgs true).1.meeting_id = mi.meeting_id) := by
  constructor
  · intro h
    simp only [AddMeetupForm.save, h, if_true]
    rfl
  · intro h
    unfold AddMeetupForm.save
    simp [h]

/-- C4 witness: on the concrete virtual instance `minst`, the saved
instance carries the client's join url and the trace opens with the
client call followed by the persist of the updated instance. -/
theorem claim_c4_witness :
    (AddMeetupForm.save env0 minst 3 4 ["i1"] true).1.meet_link = "zoom-join" := by
  rw [(claim_c4 env0 minst 3 4 ["i1"]).1 rfl]
  rfl

/-- C5 counterexample: on the concrete virtual instance `minst`, the
trace of `EditMeetupForm.save` persists the instance with its stale
`meet_link` (`"old-join"`) before `edit_meetup`/`get_meetup` are called;
the client's `join_url` (`"new-join"`) is stamped only on the returned
in-memory instance, so it is not stamped before persistence as claimed. -/
theorem claim_c5_counterexample :
    minst.is_virtual = true
  ∧ (EditMeetupForm.save env0 minst [] true []).2.2 =
      [Event.persistMeetup minst, Event.deleteMeetupImages 1,
       Event.callEditMeetup minst, Event.callGetMeetup minst]
  ∧ minst.meet_link = "old-join"
  ∧ (env0.get_meetup minst).join_url = "new-join"
  ∧ (EditMeetupForm.save env0 minst [] true []).1.meet_link = "new-join"
  ∧ ("old-join" : String) ≠ "new-join" :=
  ⟨rfl, rfl, rfl, rfl, rfl, by decide⟩

/-- C5 amended: in `EditMeetupForm.save` with commit, when `is_virtual` is
set the client is invoked (`edit_meetup` then `get_meetup`) and the
returned `join_url`, `start_url`, `id` are stamped on the returned
in-memory instance, but only after the instance has been persisted: the
persist event carries the pre-stamp field values and the stamped instance
is not saved again.  When `is_virtual` is not set the client is never
invoked and the instance is returned unchanged. -/
theorem claim_c5 (env : Env) (mi : MeetupInstance) (imgs : List String)
    (db : ImagesDb) :
    (mi.is_virtual = true →
      (EditMeetupForm.save env mi imgs true db).2.2 =
        Event.persistMeetup mi :: Event.deleteMeetupImages mi.pk ::
          (imgs.map (Event.createMeetupImage mi.pk)
            ++ [Event.callEditMeetup mi, Event.callGetMeetup mi])
    ∧ (EditMeetupForm.save env mi imgs true db).1 =
        { mi with meet_link := (env.get_meetup mi).join_url,
                  start_url := (env.get_meetup mi).start_url,
                  meeting_id := (env.get_meetup mi).id })
  ∧ (mi.is_virtual = false →
      (EditMeetupForm.save env mi imgs true db).1 = mi
    ∧ (∀ m, Event.callEditMeetup m ∉ (EditMeetupForm.save env mi imgs true db).2.2)
    ∧ (∀ m, Event.callGetMeetup m ∉ (EditMeetupForm.save env mi imgs true db).2.2)) := by
  constructor
  · intro h
    unfold EditMeetupForm.save
    simp [h]
  · intro h
    unfold EditMeetupForm.save
    simp [h]

/-- C5 witness: on the concrete virtual instance `minst`, the returned
instance carries the client's start url. -/
theorem claim_c5_witness :
    (EditMeetupForm.save env0 minst [] true []).1.start_url = "new-start" := by
  rw [((claim_c5 env0 minst [] []).1 rfl).2]
  rfl

/-- C7: with commit, RequestMeetupForm stamps `created_by` with the
SystersUser of the user given at construction, AddMeetupForm stamps both
`created_by` and `leader` from its `created_by` user, and RsvpForm stamps
`user` with the SystersUser of the given user and `meetup` with the given
meetup — in each case the persisted instance is the stamped one. -/
theorem claim_c7 (env : Env) (rqi : RequestMeetupInstance)
    (mi : MeetupInstance) (ri : RsvpInstance) (u cb l mu mt : Nat)
    (imgs : List String) :
    ((RequestMeetupForm.save env rqi u true).1.created_by
        = some (env.systersUserOf u)
     ∧ (RequestMeetupForm.save env rqi u true).2 =
         [Event.persistRequestMeetup (RequestMeetupForm.save env rqi u true).1])
  ∧ ((AddMeetupForm.save env mi cb l imgs true).1.created_by
        = some (env.systersUserOf cb)
     ∧ (AddMeetupForm.save env mi cb l imgs true).1.leader
        = some (env.systersUserOf cb)
     ∧ Event.persistMeetup (AddMeetupForm.save env mi cb l imgs true).1
         ∈ (AddMeetupForm.save env mi cb l imgs true).2)
  ∧ ((RsvpForm.save env ri mu mt true).1.user = some (env.systersUserOf mu)
     ∧ (RsvpForm.save env ri mu mt true).1.meetup = some mt
     ∧ (RsvpForm.save env ri mu mt true).2 =
         [Event.persistRsvp (RsvpForm.save env ri mu mt true).1]) := by
  refine ⟨⟨rfl, rfl⟩, ?_, ⟨rfl, rfl, rfl⟩⟩
  unfold AddMeetupForm.save
  by_cases h : mi.is_virtual <;> simp [h]

/-- The images of `a ++ b` for a meetup are those of `a` then those of
`b`. -/
theorem imagesOf_append (a b : ImagesDb) (pk : Nat) :
    imagesOf (a ++ b) pk = imagesOf a pk ++ imagesOf b pk := by
  simp [imagesOf, List.filter_append]

/-- Filtering out all rows of meetup `pk` leaves it with no images. -/
theorem imagesOf_filter_ne (db : ImagesDb) (pk : Nat) :
    imagesOf (db.filter (fun row => row.meetup != pk)) pk = [] := by
  unfold imagesOf
  rw [List.filter_filter]
  have hnone : ∀ row ∈ db, ((row.meetup == pk) && (row.meetup != pk)) = false := by
    intro row _
    by_cases h : row.meetup = pk <;> simp [h]
  rw [List.filter_congr hnone]
  simp

/-- Filtering out the rows of meetup `pk` does not change the images of a
different meetup `pk2`. -/
theorem imagesOf_filter_ne_other (db : ImagesDb) (pk pk2 : Nat)
    (h : pk2 ≠ pk) :
    imagesOf (db.filter (fun row => row.meetup != pk)) pk2
      = imagesOf db pk2 := by
  unfold imagesOf
  rw [List.filter_filter]
  have hsame : ∀ row ∈ db,
      ((row.meetup == pk2) && (row.meetup != pk)) = (row.meetup == pk2) := by
    intro row _
    by_cases hr : row.meetup = pk2
    · simp [hr, h]
    · simp [hr]
  rw [List.filter_congr hsame]

/-- Fresh rows `(pk, img)` created from `imgs` give meetup `pk` exactly
the images `imgs`. -/
theorem imagesOf_map_mk (imgs : List String) (pk : Nat) :
    imagesOf (imgs.map (fun img => MeetupImageRow.mk pk img)) pk = imgs := by
  induction imgs with
  | nil => rfl
  | cons i rest ih =>
    simpa [imagesOf, List.filter_cons] using ih

/-- Fresh rows for meetup `pk` contribute nothing to another meetup. -/
theorem imagesOf_map_mk_other (imgs : List String) (pk pk2 : Nat)
    (h : pk2 ≠ pk) :
    imagesOf (imgs.map (fun img => MeetupImageRow.mk pk img)) pk2 = [] := by
  have hne : pk ≠ pk2 := fun he => h he.symm
  induction imgs with
  | nil => rfl
  | cons i rest ih =>
    simp [imagesOf, List.filter_cons, hne] at ih ⊢

/-- C9: `EditMeetupForm.save` first deletes every `MeetupImages` row of
the meetup and then creates one row per submitted image: afterwards the
meetup's images are exactly the submitted ones (so zero when none were
submitted), images of other meetups are untouched, and in the effect
trace the delete precedes every create. -/
theorem claim_c9 (env : Env) (mi : MeetupInstance) (imgs : List String)
    (commit : Bool) (db : ImagesDb) :
    imagesOf (EditMeetupForm.save env mi imgs commit db).2.1 mi.pk = imgs
  ∧ (∀ pk2, pk2 ≠ mi.pk →
      imagesOf (EditMeetupForm.save env mi imgs commit db).2.1 pk2
        = imagesOf db pk2)
  ∧ (imgs = [] →
      imagesOf (EditMeetupForm.save env mi imgs commit db).2.1 mi.pk = [])
  ∧ (EditMeetupForm.save env mi imgs commit db).2.2 =
      (if commit then [Event.persistMeetup mi] else [])
        ++ Event.deleteMeetupImages mi.pk
            :: imgs.map (Event.createMeetupImage mi.pk)
        ++ (if mi.is_virtual then
              [Event.callEditMeetup mi, Event.callGetMeetup mi]
            else []) := by
  have hdb : (EditMeetupForm.save env mi imgs commit db).2.1 =
      db.filter (fun row => row.meetup != mi.pk)
        ++ imgs.map (fun img => MeetupImageRow.mk mi.pk img) := by
    unfold EditMeetupForm.save
    by_cases h : mi.is_virtual <;> simp [h]
  refine ⟨?_, ?_, ?_, ?_⟩
  · rw [hdb, imagesOf_append, imagesOf_filter_ne, imagesOf_map_mk]
    rfl
  · intro pk2 hpk
    rw [hdb, imagesOf_append, imagesOf_filter_ne_other db mi.pk pk2 hpk,
        imagesOf_map_mk_other imgs mi.pk pk2 hpk]
    simp
  · intro he
    rw [hdb, he, imagesOf_append, imagesOf_filter_ne]
    rfl
  · unfold EditMeetupForm.save
    by_cases h : mi.is_virtual <;> simp [h]

/-- C9 witness: editing meetup 1 (instance `minst`) with images
`["a", "b"]` over a table holding one row for meetup 1 and one for meetup
2 leaves meetup 1 with exactly `["a", "b"]` and meetup 2 untouched. -/
theorem claim_c9_witness :
    imagesOf (EditMeetupForm.save env0 minst ["a", "b"] true
      [⟨1, "x"⟩, ⟨2, "y"⟩]).2.1 2 = imagesOf [⟨1, "x"⟩, ⟨2, "y"⟩] 2 :=
  (claim_c9 env0 minst ["a", "b"] true [⟨1, "x"⟩, ⟨2, "y"⟩]).2.1 2 (by decide)

/-- C10: every instance returned by `RequestVirtualMeetupForm.save` has
`is_virtual = True`, for every environment, form instance, user and
commit flag. -/
theorem claim_c10 (env : Env) (rqi : RequestMeetupInstance) (u : Nat)
    (commit : Bool) :
    (RequestVirtualMeetupForm.save env rqi u commit).1.is_virtual = true := rfl

end Portal
